import Mathlib

/-!
Verification of the orchestration logic of `matcha_vocos_inference.py`
(Matcha-TTS + Vocos Catalan text-to-speech inference script).

The pure decision logic (speaker→cleaner mapping, CLI defaults, speaker
conditioning, RTF arithmetic) is embedded directly from the source.
Functions of the repository living in the `matcha` package (not shipped
alongside the script): `intersperse`, `text_to_sequence`,
`sequence_to_text` — are modelled from the specification, as marked in
their doc comments.  Wall-clock timestamps are embedded as rational
numbers, tensors as lists, and the file system as an explicit record of
directories and files threaded through the run.
-/

namespace Matcha

/-- `MULTIACCENT_MODEL` constant (source line 115). -/
def MULTIACCENT_MODEL : String := "projecte-aina/matxa-tts-cat-multiaccent"

/-- `DEFAULT_CLEANER` constant (source line 116). -/
def DEFAULT_CLEANER : String := "catalan_cleaners"

/-- The `matxa` model identifier chosen in `__main__` (source line 135). -/
def matxa : String := "projecte-aina/matxa-tts-cat-multiaccent"

/-- The dictionary `speaker_cleaner_mapping` of `get_cleaner_for_speaker_id`
(source lines 119–128), as a partial lookup (`dict.get` without default). -/
def speaker_cleaner_mapping (speaker_id : ℤ) : Option String :=
  if speaker_id = 0 then some "catalan_balear_cleaners"
  else if speaker_id = 1 then some "catalan_balear_cleaners"
  else if speaker_id = 2 then some "catalan_cleaners"
  else if speaker_id = 3 then some "catalan_cleaners"
  else if speaker_id = 4 then some "catalan_occidental_cleaners"
  else if speaker_id = 5 then some "catalan_occidental_cleaners"
  else if speaker_id = 6 then some "catalan_valencia_cleaners"
  else if speaker_id = 7 then some "catalan_valencia_cleaners"
  else none

/-- `get_cleaner_for_speaker_id` (source lines 118–130):
`speaker_cleaner_mapping.get(speaker_id, DEFAULT_CLEANER)`. -/
def get_cleaner_for_speaker_id (speaker_id : ℤ) : String :=
  (speaker_cleaner_mapping speaker_id).getD DEFAULT_CLEANER

/-- `default_cleaner` computed in `__main__` (source line 138):
`"auto" if matxa == MULTIACCENT_MODEL else DEFAULT_CLEANER`. -/
def default_cleaner : String :=
  if matxa = MULTIACCENT_MODEL then "auto" else DEFAULT_CLEANER

/-- The cleaner resolution of `__main__` (source line 147):
`get_cleaner_for_speaker_id(args.speaker_id) if default_cleaner=="auto" and
args.cleaner=="auto" else args.cleaner`. -/
def resolve_cleaner (speaker_id : ℤ) (requested : String) : String :=
  if default_cleaner = "auto" ∧ requested = "auto" then
    get_cleaner_for_speaker_id speaker_id
  else requested

/-- The parsed command-line arguments (source lines 139–146). -/
structure Args where
  output_path : Option String
  text_input : String
  temperature : ℚ
  length_scale : ℚ
  speaker_id : ℤ
  cleaner : String

/-- The defaults declared by `parser.add_argument` (source lines 140–145). -/
def default_args : Args :=
  { output_path := none
  , text_input := "Això és una prova de síntesi de veu."
  , temperature := 0.70
  , length_scale := 0.9
  , speaker_id := 2
  , cleaner := default_cleaner }

/-- `n_spk` computed in `tts` (source line 80):
`torch.tensor([spk_id], ...) if spk_id >= 0 else None`. -/
def n_spk (spk_id : ℤ) : Option (List ℤ) :=
  if spk_id ≥ 0 then some [spk_id] else none

/-- Default value of the `n_timesteps` parameter of `tts` (source line 79). -/
def tts_default_n_timesteps : ℕ := 10

/-- The argument record of the single `tts(...)` call in `__main__`
(source line 164). -/
structure TtsInvocation where
  text : String
  spk_id : ℤ
  n_timesteps : ℕ
  length_scale : ℚ
  temperature : ℚ
  output_path : Option String
  cleaner : String

/-- The `tts(...)` call made by `__main__` (source lines 147 and 164):
`n_timesteps` is the literal 80; everything else comes from the parsed
arguments, with the cleaner resolved by line 147. -/
def main_invocation (args : Args) : TtsInvocation :=
  { text := args.text_input
  , spk_id := args.speaker_id
  , n_timesteps := 80
  , length_scale := args.length_scale
  , temperature := args.temperature
  , output_path := args.output_path
  , cleaner := resolve_cleaner args.speaker_id args.cleaner }

/-- The error taxonomy of the pipeline (spec §7). -/
inductive TTSError where
  | UnknownProfile
  | EncodingError
  | ModelError
  | IOError
  deriving DecidableEq, Repr

/-- Modelled from the spec: the cleaner registry of the `matcha` package
(code of this repository not under src/).  The configured cleaner set is
the Catalan cleaners named by the accent mapping and the default. -/
def registered_cleaners : List String :=
  ["catalan_cleaners", "catalan_balear_cleaners",
   "catalan_occidental_cleaners", "catalan_valencia_cleaners"]

/-- Modelled from the spec: `intersperse` from `matcha.utils.utils` (code of
this repository not under src/): "inserts a constant separator code between
every adjacent pair of real symbols" (spec §4.2). -/
def intersperse (sep : ℕ) : List ℕ → List ℕ
  | [] => []
  | [a] => [a]
  | a :: b :: rest => a :: sep :: intersperse sep (b :: rest)

/-- Modelled from the spec: `text_to_sequence` from `matcha.text` (code of
this repository not under src/): encodes `text` into integer codes using the
named cleaner; fails with `UnknownProfile` when the cleaner is not
registered; the cleaner's own encoding (abstracted as `encode`) may fail
with `EncodingError` (spec §4.2).  -/
def text_to_sequence (encode : String → Except TTSError (List ℕ))
    (text : String) (cleaner : String) : Except TTSError (List ℕ) :=
  if cleaner ∈ registered_cleaners then encode text
  else Except.error TTSError.UnknownProfile

/-- Modelled from the spec: `sequence_to_text` from `matcha.text` (code of
this repository not under src/): decodes each integer code back to its
symbol in the profile vocabulary and concatenates; undefined on a code
outside the vocabulary (spec §4.2). -/
def sequence_to_text (vocab : List String) : List ℕ → Option String
  | [] => some ""
  | c :: rest =>
    match vocab[c]?, sequence_to_text vocab rest with
    | some s, some t => some (s ++ t)
    | _, _ => none

/-- The dictionary returned by `process_text` (source lines 41–46); the
tensor `x` is embedded as a list of codes and `x_lengths` as a scalar. -/
structure ProcessedText where
  x_orig : String
  x : List ℕ
  x_lengths : ℕ
  x_phones : Option String
  deriving DecidableEq, Repr

/-- `process_text` (source lines 36–46): encodes the text with the cleaner,
intersperses the separator code 0, records the length of the interspersed
sequence (`x.shape[-1]`), and decodes the interspersed sequence itself for
the diagnostic `x_phones` (line 40 applies `sequence_to_text` to `x`). -/
def process_text (vocab : List String)
    (encode : String → Except TTSError (List ℕ))
    (text : String) (cleaner : String) : Except TTSError ProcessedText :=
  match text_to_sequence encode text cleaner with
  | Except.error e => Except.error e
  | Except.ok seq =>
    let x := intersperse 0 seq
    Except.ok { x_orig := text, x := x, x_lengths := x.length,
                x_phones := sequence_to_text vocab x }

theorem length_intersperse (sep : ℕ) :
    ∀ l : List ℕ, (intersperse sep l).length = 2 * l.length - 1
  | [] => rfl
  | [_] => rfl
  | a :: b :: rest => by
    have ih := length_intersperse sep (b :: rest)
    show (a :: sep :: intersperse sep (b :: rest)).length = _
    simp only [List.length_cons] at ih ⊢
    omega

theorem intersperse_getElem?_even (sep : ℕ) :
    ∀ (l : List ℕ) (k : ℕ), (intersperse sep l)[2 * k]? = l[k]?
  | [], k => by simp [intersperse]
  | [a], k => by
    match k with
    | 0 => rfl
    | n + 1 =>
      show ([a] : List ℕ)[2 * (n + 1)]? = ([a] : List ℕ)[n + 1]?
      rw [List.getElem?_eq_none (l := [a]) (by simp only [List.length_singleton]; omega),
        List.getElem?_eq_none (l := [a]) (by simp only [List.length_singleton]; omega)]
  | a :: b :: rest, k => by
    match k with
    | 0 =>
      have h0 : (2 : ℕ) * 0 = 0 := by norm_num
      rw [h0]
      show (a :: sep :: intersperse sep (b :: rest))[0]? = _
      rw [List.getElem?_cons_zero, List.getElem?_cons_zero]
    | n + 1 =>
      have ih := intersperse_getElem?_even sep (b :: rest) n
      have h2 : 2 * (n + 1) = (2 * n + 1) + 1 := by ring
      show (a :: sep :: intersperse sep (b :: rest))[2 * (n + 1)]? = _
      rw [h2, List.getElem?_cons_succ, List.getElem?_cons_succ,
        List.getElem?_cons_succ, ih]

theorem intersperse_getElem?_odd (sep : ℕ) :
    ∀ (l : List ℕ) (k : ℕ),
      (intersperse sep l)[2 * k + 1]? =
        if k + 1 < l.length then some sep else none
  | [], k => by simp [intersperse]
  | [a], k => by
    show ([a] : List ℕ)[2 * k + 1]? = _
    rw [List.getElem?_eq_none (l := [a]) (by simp only [List.length_singleton]; omega),
      if_neg (by simp only [List.length_singleton]; omega)]
  | a :: b :: rest, k => by
    match k with
    | 0 =>
      have h0 : (2 : ℕ) * 0 + 1 = 1 := by norm_num
      rw [h0, if_pos (by simp only [List.length_cons]; omega)]
      show (a :: sep :: intersperse sep (b :: rest))[1]? = some sep
      rw [List.getElem?_cons_succ, List.getElem?_cons_zero]
    | n + 1 =>
      have ih := intersperse_getElem?_odd sep (b :: rest) n
      have h2 : 2 * (n + 1) + 1 = ((2 * n + 1) + 1) + 1 := by ring
      show (a :: sep :: intersperse sep (b :: rest))[2 * (n + 1) + 1]? = _
      rw [h2, List.getElem?_cons_succ, List.getElem?_cons_succ, ih]
      by_cases h : n + 1 < (b :: rest).length
      · rw [if_pos h, if_pos (by simp only [List.length_cons] at h ⊢; omega)]
      · rw [if_neg h, if_neg (by simp only [List.length_cons] at h ⊢; omega)]

theorem mem_intersperse (sep : ℕ) :
    ∀ {l : List ℕ} {c : ℕ}, c ∈ intersperse sep l → c = sep ∨ c ∈ l
  | [], c, h => by simp [intersperse] at h
  | [a], c, h => by
    have h0 : c ∈ [a] := h
    right; exact h0
  | a :: b :: rest, c, h => by
    have h0 : c ∈ a :: sep :: intersperse sep (b :: rest) := h
    rcases List.mem_cons.mp h0 with h1 | h1
    · right; rw [h1]; exact List.mem_cons_self a (b :: rest)
    rcases List.mem_cons.mp h1 with h2 | h2
    · left; exact h2
    rcases mem_intersperse sep h2 with h3 | h3
    · left; exact h3
    · right; exact List.mem_cons_of_mem a h3

theorem sequence_to_text_isSome (vocab : List String) :
    ∀ seq : List ℕ, (∀ c ∈ seq, c < vocab.length) →
      (sequence_to_text vocab seq).isSome
  | [], _ => rfl
  | c :: rest, h => by
    have hc : c < vocab.length := h c (by simp)
    have ih := sequence_to_text_isSome vocab rest
      (fun d hd => h d (by simp [hd]))
    show (match vocab[c]?, sequence_to_text vocab rest with
      | some s, some t => some (s ++ t)
      | _, _ => none).isSome
    rw [List.getElem?_eq_getElem hc]
    obtain ⟨t, ht⟩ := Option.isSome_iff_exists.mp ih
    rw [ht]
    rfl

/-- C2: Interspersion invariant: when the cleaner encodes the text to a
non-empty code sequence of length N, `process_text` succeeds; its symbol
sequence has length exactly 2N−1; counting positions 1-based, the separator
code 0 occupies every even position and nowhere else (0-based: index 2k
carries the k-th real symbol, index 2k+1 carries a separator exactly when a
(k+1)-th real symbol follows); and the declared `x_lengths` field equals
the actual length of the produced sequence. -/
theorem C2_interspersion_invariant (vocab : List String)
    (encode : String → Except TTSError (List ℕ)) (text cleaner : String)
    (seq : List ℕ)
    (henc : text_to_sequence encode text cleaner = Except.ok seq)
    (_hN : 1 ≤ seq.length) :
    process_text vocab encode text cleaner =
      Except.ok { x_orig := text, x := intersperse 0 seq,
                  x_lengths := (intersperse 0 seq).length,
                  x_phones := sequence_to_text vocab (intersperse 0 seq) } ∧
    (intersperse 0 seq).length = 2 * seq.length - 1 ∧
    (∀ k, (intersperse 0 seq)[2 * k]? = seq[k]?) ∧
    (∀ k, (intersperse 0 seq)[2 * k + 1]? =
      if k + 1 < seq.length then some 0 else none) := by
  refine ⟨?_, length_intersperse 0 seq,
    fun k => intersperse_getElem?_even 0 seq k,
    fun k => intersperse_getElem?_odd 0 seq k⟩
  simp only [process_text, henc]

/-- Witness for C2 at a concrete input: the two-code sequence [1, 2]
(vocabulary ["_", "a", "b"], text "ab", registered cleaner) produces the
interspersed sequence [1, 0, 2] of length 3 = 2·2 − 1. -/
theorem C2_interspersion_invariant_witness :
    text_to_sequence (fun _ => Except.ok [1, 2]) "ab" "catalan_cleaners" =
      Except.ok [1, 2] ∧
    1 ≤ ([1, 2] : List ℕ).length ∧
    (process_text ["_", "a", "b"] (fun _ => Except.ok [1, 2]) "ab" "catalan_cleaners" =
      Except.ok { x_orig := "ab", x := intersperse 0 [1, 2],
                  x_lengths := (intersperse 0 [1, 2]).length,
                  x_phones := sequence_to_text ["_", "a", "b"] (intersperse 0 [1, 2]) } ∧
     (intersperse 0 [1, 2]).length = 2 * ([1, 2] : List ℕ).length - 1 ∧
     (∀ k, (intersperse 0 [1, 2])[2 * k]? = ([1, 2] : List ℕ)[k]?) ∧
     (∀ k, (intersperse 0 [1, 2])[2 * k + 1]? =
       if k + 1 < ([1, 2] : List ℕ).length then some 0 else none)) := by
  have h1 : text_to_sequence (fun _ => Except.ok [1, 2]) "ab" "catalan_cleaners" =
      Except.ok [1, 2] := rfl
  have h2 : 1 ≤ ([1, 2] : List ℕ).length := by decide
  exact ⟨h1, h2, C2_interspersion_invariant ["_", "a", "b"] _ "ab" _ [1, 2] h1 h2⟩

/-- C3, refuted on the code: `process_text` (source line 40) computes
`x_phones` by decoding the interspersed sequence `x`, not the raw
pre-intersperse codes.  With vocabulary ["_", "a", "b"] and raw codes
[1, 2], the raw codes decode to "ab" while `x_phones` is "a_b" (the
inserted separator code 0 is decoded as well). -/
theorem C3_phones_decode_counterexample :
    process_text ["_", "a", "b"] (fun _ => Except.ok [1, 2]) "ab" "catalan_cleaners"
      = Except.ok { x_orig := "ab", x := [1, 0, 2], x_lengths := 3,
                    x_phones := some "a_b" } ∧
    sequence_to_text ["_", "a", "b"] [1, 2] = some "ab" ∧
    (some "a_b" : Option String) ≠ some "ab" := by
  refine ⟨rfl, rfl, ?_⟩
  simp

/-- C3, amended: the diagnostic `x_phones` is produced by decoding the
post-intersperse sequence (separator code included); when every code the
cleaner emits lies in the profile vocabulary and the vocabulary decodes the
separator code 0, this decoding succeeds, and the raw pre-intersperse codes
are likewise decodable (encode-then-decode is lossless with respect to the
profile's vocabulary). -/
theorem C3_diagnostic_decoding (vocab : List String)
    (encode : String → Except TTSError (List ℕ)) (text cleaner : String)
    (seq : List ℕ)
    (henc : text_to_sequence encode text cleaner = Except.ok seq)
    (hvocab : 0 < vocab.length)
    (hcodes : ∀ c ∈ seq, c < vocab.length) :
    process_text vocab encode text cleaner =
      Except.ok { x_orig := text, x := intersperse 0 seq,
                  x_lengths := (intersperse 0 seq).length,
                  x_phones := sequence_to_text vocab (intersperse 0 seq) } ∧
    (sequence_to_text vocab (intersperse 0 seq)).isSome ∧
    (sequence_to_text vocab seq).isSome := by
  refine ⟨?_, ?_, sequence_to_text_isSome vocab seq hcodes⟩
  · simp only [process_text, henc]
  · apply sequence_to_text_isSome
    intro c hc
    rcases mem_intersperse 0 hc with h | h
    · rw [h]; exact hvocab
    · exact hcodes c h

/-- Witness for the amended C3 at a concrete input: codes [2, 1] over the
vocabulary ["_", "a", "b"]: `x_phones` decodes the interspersed sequence
[2, 0, 1] (to "b_a"), and both the interspersed and the raw codes are
decodable. -/
theorem C3_diagnostic_decoding_witness :
    text_to_sequence (fun _ => Except.ok [2, 1]) "ba" "catalan_cleaners" =
      Except.ok [2, 1] ∧
    0 < (["_", "a", "b"] : List String).length ∧
    (∀ c ∈ ([2, 1] : List ℕ), c < (["_", "a", "b"] : List String).length) ∧
    (process_text ["_", "a", "b"] (fun _ => Except.ok [2, 1]) "ba" "catalan_cleaners" =
      Except.ok { x_orig := "ba", x := intersperse 0 [2, 1],
                  x_lengths := (intersperse 0 [2, 1]).length,
                  x_phones := sequence_to_text ["_", "a", "b"] (intersperse 0 [2, 1]) } ∧
     (sequence_to_text ["_", "a", "b"] (intersperse 0 [2, 1])).isSome ∧
     (sequence_to_text ["_", "a", "b"] ([2, 1] : List ℕ)).isSome) := by
  have h1 : text_to_sequence (fun _ => Except.ok [2, 1]) "ba" "catalan_cleaners" =
      Except.ok [2, 1] := rfl
  have h2 : 0 < (["_", "a", "b"] : List String).length := by decide
  have h3 : ∀ c ∈ ([2, 1] : List ℕ), c < (["_", "a", "b"] : List String).length := by
    decide
  exact ⟨h1, h2, h3, C3_diagnostic_decoding ["_", "a", "b"] _ "ba" _ [2, 1] h1 h2 h3⟩

/-- The observable external-stage invocations of one run, in order. -/
inductive Ev where
  | processText
  | modelSynthesise
  | vocoderDecode
  deriving DecidableEq, Repr

/-- A file on disk; for the waveform file the sample rate and the PCM
subtype passed to `sf.write` are recorded as its metadata. -/
structure FileRec where
  path : String
  sampleRate : Option ℕ
  subtype : Option String
  deriving DecidableEq, Repr

/-- The file system visible to the run: a set of directories and files. -/
structure FS where
  dirs : List String
  files : List FileRec
  deriving DecidableEq, Repr

/-- `folder.mkdir(exist_ok=True, parents=True)` (source line 74): creates
the directory if absent; no error and no change when it already exists. -/
def FS.mkdir (folder : String) (fs : FS) : FS :=
  if folder ∈ fs.dirs then fs else { fs with dirs := folder :: fs.dirs }

/-- Remove any file stored at path `p` (helper for overwriting). -/
def removeFile (p : String) : List FileRec → List FileRec
  | [] => []
  | q :: l => if q.path = p then removeFile p l else q :: removeFile p l

/-- Look up the file stored at path `p`. -/
def findFile (p : String) : List FileRec → Option FileRec
  | [] => none
  | q :: l => if q.path = p then some q else findFile p l

/-- A file write: any pre-existing file at the same path is overwritten. -/
def FS.write (r : FileRec) (fs : FS) : FS :=
  { fs with files := r :: removeFile r.path fs.files }

/-- The file currently stored at path `p`, if any. -/
def FS.find (fs : FS) (p : String) : Option FileRec :=
  findFile p fs.files

/-- The path `folder / f"{filename}"` given to `np.save` (source line 75). -/
def mel_path (folder filename : String) : String :=
  folder ++ "/" ++ filename

/-- The path `folder / f"{filename}.wav"` given to `sf.write` (source
line 76). -/
def wav_path (folder filename : String) : String :=
  folder ++ "/" ++ filename ++ ".wav"

/-- `os.path.join(output_path, "spk_" + str(spk_id))` (source line 109). -/
def spk_folder (output_path : String) (spk_id : ℤ) : String :=
  output_path ++ "/" ++ ("spk_" ++ toString spk_id)

/-- `save_to_folder` (source lines 72–76): creates the folder, writes the
mel array with `np.save`, then the waveform with
`sf.write(..., 22050, "PCM_24")`.  The two writes are fallible (spec §7,
`IOError`); `melWriteOk` and `wavWriteOk` say whether each underlying write
succeeds, a failed write aborts, and effects already performed persist. -/
def save_to_folder (filename : String) (folder : String)
    (melWriteOk wavWriteOk : Bool) (fs : FS) : Except TTSError Unit × FS :=
  let fs0 := FS.mkdir folder fs
  if melWriteOk then
    let fs1 := FS.write
      { path := mel_path folder filename, sampleRate := none, subtype := none } fs0
    if wavWriteOk then
      (Except.ok (), FS.write
        { path := wav_path folder filename, sampleRate := some 22050,
          subtype := some "PCM_24" } fs1)
    else (Except.error TTSError.IOError, fs1)
  else (Except.error TTSError.IOError, fs0)

/-- Whether each external call of the run succeeds: the acoustic model call
(`model.synthesise`, spec §4.3, `ModelError`), the vocoder call
(`vocoder.decode`, spec §4.4, `ModelError`), and the two file writes inside
`save_to_folder` (spec §7, `IOError`). -/
structure RunConfig where
  modelOk : Bool
  vocoderOk : Bool
  melWriteOk : Bool
  wavWriteOk : Bool

/-- The `tts` pipeline (source lines 49–63 and 79–109) as a state-passing
run: `process_text`, then `model.synthesise`, then `vocos_vocoder.decode`,
then `save_to_folder("synth", ..., output_path/spk_<id>)`.  A raised error
at any stage aborts the rest (Python exception propagation); the returned
trace lists the stage invocations that happened, and the file system is
threaded through explicitly. -/
def ttsRun (vocab : List String) (encode : String → Except TTSError (List ℕ))
    (text cleaner : String) (spk_id : ℤ) (output_path : String)
    (cfg : RunConfig) (fs : FS) :
    Except TTSError Unit × FS × List Ev :=
  match process_text vocab encode text cleaner with
  | Except.error e => (Except.error e, fs, [Ev.processText])
  | Except.ok _ =>
    if cfg.modelOk then
      if cfg.vocoderOk then
        let r := save_to_folder "synth" (spk_folder output_path spk_id)
          cfg.melWriteOk cfg.wavWriteOk fs
        (r.1, r.2, [Ev.processText, Ev.modelSynthesise, Ev.vocoderDecode])
      else
        (Except.error TTSError.ModelError, fs,
          [Ev.processText, Ev.modelSynthesise])
    else (Except.error TTSError.ModelError, fs, [Ev.processText])

/-- Timing skeleton of `synthesise` and `tts` (source lines 50–63 and
84–91): `datetime.now()` values are embedded as rational timestamps.  `t0`
is the wall-clock on entering `synthesise`; `dProc`, `dModel` and `dVoc`
are the durations of text processing, the acoustic call and the vocoder
call.  `start_t` is recorded after `process_text` returns and before
`model.synthesise` (line 52); the elapsed time `t` is taken after
`vocoder.decode` (line 90), and line 91 computes
`rtf_w = t * 22050 / waveform.shape[-1]`. -/
def rtf_waveform (t0 dProc dModel dVoc : ℚ) (nSamples : ℕ) : ℚ :=
  let start_t := t0 + dProc
  let t_after_vocoder := t0 + dProc + dModel + dVoc
  let t := t_after_vocoder - start_t
  t * 22050 / nSamples

theorem findFile_removeFile (rpath p : String) (h : p ≠ rpath) :
    ∀ l : List FileRec, findFile p (removeFile rpath l) = findFile p l
  | [] => rfl
  | q :: l => by
    have ih := findFile_removeFile rpath p h l
    by_cases hq : q.path = rpath
    · simp only [removeFile, if_pos hq, findFile]
      rw [if_neg (by rw [hq]; exact fun hh => h hh.symm), ih]
    · simp only [removeFile, if_neg hq, findFile]
      by_cases hp : q.path = p
      · rw [if_pos hp, if_pos hp]
      · rw [if_neg hp, if_neg hp, ih]

theorem removeFile_of_not_mem (rpath : String) :
    ∀ l : List FileRec, (∀ q ∈ l, q.path ≠ rpath) → removeFile rpath l = l
  | [], _ => rfl
  | q :: l, h => by
    simp only [removeFile, if_neg (h q (by simp))]
    rw [removeFile_of_not_mem rpath l (fun d hd => h d (by simp [hd]))]

theorem FS.find_write_self (r : FileRec) (fs : FS) :
    FS.find (FS.write r fs) r.path = some r := by
  unfold FS.find FS.write
  simp [findFile]

theorem FS.find_write_ne (r : FileRec) (p : String) (fs : FS)
    (h : p ≠ r.path) : FS.find (FS.write r fs) p = FS.find fs p := by
  unfold FS.find FS.write
  simp only [findFile, if_neg (fun hh : r.path = p => h hh.symm)]
  exact findFile_removeFile r.path p h fs.files

theorem FS.mem_mkdir (folder : String) (fs : FS) :
    folder ∈ (FS.mkdir folder fs).dirs := by
  unfold FS.mkdir
  by_cases h : folder ∈ fs.dirs
  · rw [if_pos h]; exact h
  · rw [if_neg h]; exact List.mem_cons_self _ _

theorem FS.mkdir_of_mem (folder : String) (fs : FS)
    (h : folder ∈ fs.dirs) : FS.mkdir folder fs = fs := by
  unfold FS.mkdir
  rw [if_pos h]

theorem FS.mkdir_files (folder : String) (fs : FS) :
    (FS.mkdir folder fs).files = fs.files := by
  unfold FS.mkdir
  by_cases h : folder ∈ fs.dirs
  · rw [if_pos h]
  · rw [if_neg h]

theorem FS.find_mkdir (folder p : String) (fs : FS) :
    FS.find (FS.mkdir folder fs) p = FS.find fs p := by
  unfold FS.find
  rw [FS.mkdir_files]

theorem mel_path_ne_wav_path (folder filename : String) :
    mel_path folder filename ≠ wav_path folder filename := by
  intro h
  have hl := congrArg String.length h
  simp only [mel_path, wav_path, String.length_append] at hl
  have h4 : (".wav" : String).length = 4 := rfl
  omega

/-- C1: Profile resolution: every speaker id present in the fixed mapping
resolves (with the "auto" sentinel) to its mapped profile; every absent id
resolves to the default profile `"catalan_cleaners"`; and any requested
profile other than `"auto"` is returned unchanged, regardless of speaker
id. -/
theorem C1_profile_resolution :
    (∀ s p, speaker_cleaner_mapping s = some p → resolve_cleaner s "auto" = p) ∧
    (∀ s, speaker_cleaner_mapping s = none →
      resolve_cleaner s "auto" = "catalan_cleaners") ∧
    (∀ s p, p ≠ "auto" → resolve_cleaner s p = p) := by
  have hauto : default_cleaner = "auto" := by decide
  refine ⟨?_, ?_, ?_⟩
  · intro s p hp
    rw [resolve_cleaner, if_pos ⟨hauto, rfl⟩, get_cleaner_for_speaker_id, hp,
      Option.getD_some]
  · intro s hs
    rw [resolve_cleaner, if_pos ⟨hauto, rfl⟩, get_cleaner_for_speaker_id, hs,
      Option.getD_none, DEFAULT_CLEANER]
  · intro s p hp
    rw [resolve_cleaner, if_neg (fun h => hp h.2)]

/-- Witness for C1 at concrete inputs: speaker 0 with "auto" gives the
Balearic profile, unmapped speaker 99 with "auto" gives the default, and
a non-"auto" request is returned unchanged. -/
theorem C1_profile_resolution_witness :
    (speaker_cleaner_mapping 0 = some "catalan_balear_cleaners" ∧
      resolve_cleaner 0 "auto" = "catalan_balear_cleaners") ∧
    (speaker_cleaner_mapping 99 = none ∧
      resolve_cleaner 99 "auto" = "catalan_cleaners") ∧
    ("klingon_cleaners" ≠ "auto" ∧
      resolve_cleaner 3 "klingon_cleaners" = "klingon_cleaners") :=
  ⟨⟨by decide, C1_profile_resolution.1 0 _ (by decide)⟩,
   ⟨by decide, C1_profile_resolution.2.1 99 (by decide)⟩,
   ⟨by decide, C1_profile_resolution.2.2 3 _ (by decide)⟩⟩

/-- C8: CLI defaults: the flags for output directory, input text,
temperature, duration scale, speaker id and cleaner profile default to
`None`, the Catalan test sentence, 0.70, 0.9, 2 and `"auto"` respectively,
and with the default "auto" profile, resolution goes through the
speaker-id accent mapping. -/
theorem C8_cli_defaults :
    default_args.output_path = none ∧
    default_args.text_input = "Això és una prova de síntesi de veu." ∧
    default_args.temperature = 7 / 10 ∧
    default_args.length_scale = 9 / 10 ∧
    default_args.speaker_id = 2 ∧
    default_args.cleaner = "auto" ∧
    resolve_cleaner default_args.speaker_id default_args.cleaner =
      get_cleaner_for_speaker_id default_args.speaker_id := by
  refine ⟨rfl, rfl, by norm_num [default_args], by norm_num [default_args],
    rfl, by decide, ?_⟩
  rw [resolve_cleaner, if_pos ⟨by decide, by decide⟩]

/-- C9: negative speaker id selects the default voice: for `spk_id < 0`
the speaker conditioning passed to the acoustic model is `None`; for
`spk_id ≥ 0` it is a one-element tensor holding exactly `spk_id`, with no
range validation (any non-negative id passes through). -/
theorem C9_negative_speaker_id (s : ℤ) :
    (s < 0 → n_spk s = none) ∧ (0 ≤ s → n_spk s = some [s]) := by
  constructor
  · intro h
    rw [n_spk, if_neg (by omega)]
  · intro h
    rw [n_spk, if_pos h]

/-- Witness for C9: speaker −1 yields no conditioning; the out-of-range
id 1000 still passes through as a one-element tensor. -/
theorem C9_negative_speaker_id_witness :
    ((-1 : ℤ) < 0 ∧ n_spk (-1) = none) ∧
    ((0 : ℤ) ≤ 1000 ∧ n_spk 1000 = some [1000]) :=
  ⟨⟨by decide, (C9_negative_speaker_id (-1)).1 (by decide)⟩,
   ⟨by decide, (C9_negative_speaker_id 1000).2 (by decide)⟩⟩

/-- C4: failure ordering: with an unregistered profile the run fails with
`UnknownProfile` raised during text processing; the acoustic model and the
vocoder are never invoked, and the file system is untouched. -/
theorem C4_failure_ordering (vocab : List String)
    (encode : String → Except TTSError (List ℕ)) (text cleaner : String)
    (spk_id : ℤ) (output_path : String) (cfg : RunConfig) (fs : FS)
    (hcl : cleaner ∉ registered_cleaners) :
    (ttsRun vocab encode text cleaner spk_id output_path cfg fs).1 =
      Except.error TTSError.UnknownProfile ∧
    Ev.modelSynthesise ∉
      (ttsRun vocab encode text cleaner spk_id output_path cfg fs).2.2 ∧
    Ev.vocoderDecode ∉
      (ttsRun vocab encode text cleaner spk_id output_path cfg fs).2.2 ∧
    (ttsRun vocab encode text cleaner spk_id output_path cfg fs).2.1 = fs := by
  have htt : text_to_sequence encode text cleaner =
      Except.error TTSError.UnknownProfile := by
    unfold text_to_sequence
    rw [if_neg hcl]
  have hpt : process_text vocab encode text cleaner =
      Except.error TTSError.UnknownProfile := by
    simp only [process_text, htt]
  have hrun : ttsRun vocab encode text cleaner spk_id output_path cfg fs =
      (Except.error TTSError.UnknownProfile, fs, [Ev.processText]) := by
    simp only [ttsRun, hpt]
  refine ⟨by rw [hrun], ?_, ?_, by rw [hrun]⟩
  · rw [hrun]
    show Ev.modelSynthesise ∉ [Ev.processText]
    decide
  · rw [hrun]
    show Ev.vocoderDecode ∉ [Ev.processText]
    decide

/-- Witness for C4 at a concrete input: requesting the unregistered
profile "klingon_cleaners" fails with `UnknownProfile` and neither the
acoustic model nor the vocoder is invoked. -/
theorem C4_failure_ordering_witness :
    ("klingon_cleaners" ∉ registered_cleaners) ∧
    ((ttsRun [] (fun _ => Except.ok []) "hola" "klingon_cleaners" 2 "out"
        ⟨true, true, true, true⟩ ⟨[], []⟩).1 =
          Except.error TTSError.UnknownProfile ∧
      Ev.modelSynthesise ∉ (ttsRun [] (fun _ => Except.ok []) "hola"
        "klingon_cleaners" 2 "out" ⟨true, true, true, true⟩ ⟨[], []⟩).2.2 ∧
      Ev.vocoderDecode ∉ (ttsRun [] (fun _ => Except.ok []) "hola"
        "klingon_cleaners" 2 "out" ⟨true, true, true, true⟩ ⟨[], []⟩).2.2 ∧
      (ttsRun [] (fun _ => Except.ok []) "hola" "klingon_cleaners" 2 "out"
        ⟨true, true, true, true⟩ ⟨[], []⟩).2.1 = ⟨[], []⟩) := by
  have h : ("klingon_cleaners" : String) ∉ registered_cleaners := by decide
  exact ⟨h, C4_failure_ordering [] (fun _ => Except.ok []) "hola"
    "klingon_cleaners" 2 "out" ⟨true, true, true, true⟩ ⟨[], []⟩ h⟩

/-- C5: RTF computation: the waveform real-time factor equals
`total_elapsed * 22050 / sample_count`, where `total_elapsed` runs from
the start timestamp recorded after text processing completes (and before
the acoustic call) to after vocoder decoding — so the text-processing time
`dProc` is excluded — and the value is below 1 exactly when the elapsed
time is smaller than the audio's real-time duration
`sample_count / 22050`. -/
theorem C5_rtf_computation (t0 dProc dModel dVoc : ℚ) (nSamples : ℕ)
    (hn : 0 < nSamples) :
    rtf_waveform t0 dProc dModel dVoc nSamples =
      (dModel + dVoc) * 22050 / (nSamples : ℚ) ∧
    (rtf_waveform t0 dProc dModel dVoc nSamples < 1 ↔
      dModel + dVoc < (nSamples : ℚ) / 22050) := by
  have hq : (0 : ℚ) < (nSamples : ℚ) := by exact_mod_cast hn
  have he : rtf_waveform t0 dProc dModel dVoc nSamples =
      (dModel + dVoc) * 22050 / (nSamples : ℚ) := by
    show (t0 + dProc + dModel + dVoc - (t0 + dProc)) * 22050 / (nSamples : ℚ) = _
    ring_nf
  refine ⟨he, ?_⟩
  rw [he, div_lt_one hq, lt_div_iff₀ (by norm_num : (0 : ℚ) < 22050)]

/-- Witness for C5 at concrete numbers: three seconds of audio
(66150 samples) produced in two seconds of model-plus-vocoder time has
waveform RTF 2·22050/66150 = 2/3, which is below 1. -/
theorem C5_rtf_computation_witness :
    0 < (66150 : ℕ) ∧
    (rtf_waveform 0 5 1 1 66150 =
      ((1 : ℚ) + 1) * 22050 / ((66150 : ℕ) : ℚ) ∧
     (rtf_waveform 0 5 1 1 66150 < 1 ↔
      (1 : ℚ) + 1 < ((66150 : ℕ) : ℚ) / 22050)) :=
  ⟨by norm_num, C5_rtf_computation 0 5 1 1 66150 (by norm_num)⟩

/-- C6, refuted on the code of `save_to_folder`: `np.save` (line 75) runs
before `sf.write` (line 76), so a waveform-write failure after a
successful mel write aborts the run leaving the mel file on disk without
its waveform file.  Concretely: from an empty file system, a run in which
every stage succeeds except the waveform write ends in `IOError` with the
mel file present and no waveform file. -/
theorem C6_partial_artifact_counterexample :
    (ttsRun ["_", "a"] (fun _ => Except.ok [1]) "a" "catalan_cleaners" 2
      "out" ⟨true, true, true, false⟩ ⟨[], []⟩).1 =
        Except.error TTSError.IOError ∧
    FS.find (ttsRun ["_", "a"] (fun _ => Except.ok [1]) "a"
        "catalan_cleaners" 2 "out" ⟨true, true, true, false⟩ ⟨[], []⟩).2.1
      (mel_path (spk_folder "out" 2) "synth") =
        some ⟨mel_path (spk_folder "out" 2) "synth", none, none⟩ ∧
    FS.find (ttsRun ["_", "a"] (fun _ => Except.ok [1]) "a"
        "catalan_cleaners" 2 "out" ⟨true, true, true, false⟩ ⟨[], []⟩).2.1
      (wav_path (spk_folder "out" 2) "synth") = none :=
  ⟨rfl, rfl, rfl⟩

/-- C6, amended: no output artifact is written unless both the
mel-spectrogram and the waveform have been produced — a failure of text
processing, of the acoustic model, or of the vocoder leaves the file
system unchanged, and a failed mel write writes no file at all.
Persistence itself is however not atomic: the mel write precedes the
waveform write, so when only the waveform write fails the run aborts with
`IOError` leaving the mel file on disk while the waveform path stays as it
was before the run. -/
theorem C6_output_atomicity (vocab : List String)
    (encode : String → Except TTSError (List ℕ)) (text cleaner : String)
    (spk_id : ℤ) (output_path : String) (cfg : RunConfig) (fs : FS) :
    ((∃ e, process_text vocab encode text cleaner = Except.error e) →
      (ttsRun vocab encode text cleaner spk_id output_path cfg fs).2.1 = fs) ∧
    (cfg.modelOk = false →
      (ttsRun vocab encode text cleaner spk_id output_path cfg fs).2.1 = fs) ∧
    (cfg.vocoderOk = false →
      (ttsRun vocab encode text cleaner spk_id output_path cfg fs).2.1 = fs) ∧
    (cfg.melWriteOk = false →
      (ttsRun vocab encode text cleaner spk_id output_path cfg fs).2.1.files =
        fs.files) ∧
    (∀ seq, text_to_sequence encode text cleaner = Except.ok seq →
      cfg.modelOk = true → cfg.vocoderOk = true → cfg.melWriteOk = true →
      cfg.wavWriteOk = false →
      (ttsRun vocab encode text cleaner spk_id output_path cfg fs).1 =
        Except.error TTSError.IOError ∧
      FS.find (ttsRun vocab encode text cleaner spk_id output_path cfg fs).2.1
          (mel_path (spk_folder output_path spk_id) "synth") =
        some ⟨mel_path (spk_folder output_path spk_id) "synth", none, none⟩ ∧
      FS.find (ttsRun vocab encode text cleaner spk_id output_path cfg fs).2.1
          (wav_path (spk_folder output_path spk_id) "synth") =
        FS.find fs (wav_path (spk_folder output_path spk_id) "synth")) := by
  refine ⟨?_, ?_, ?_, ?_, ?_⟩
  · rintro ⟨e, he⟩
    simp [ttsRun, he]
  · intro hm
    cases hp : process_text vocab encode text cleaner with
    | error e => simp [ttsRun, hp]
    | ok pt => simp [ttsRun, hp, hm]
  · intro hv
    cases hp : process_text vocab encode text cleaner with
    | error e => simp [ttsRun, hp]
    | ok pt =>
      by_cases hm : cfg.modelOk = true
      · simp [ttsRun, hp, hm, hv]
      · simp [ttsRun, hp, hm]
  · intro hmel
    cases hp : process_text vocab encode text cleaner with
    | error e => simp [ttsRun, hp]
    | ok pt =>
      by_cases hm : cfg.modelOk = true
      · by_cases hv : cfg.vocoderOk = true
        · simp [ttsRun, hp, hm, hv, save_to_folder, hmel, FS.mkdir_files]
        · simp [ttsRun, hp, hm, hv]
      · simp [ttsRun, hp, hm]
  · intro seq hseq hm hv hmel hwav
    have hp : process_text vocab encode text cleaner =
        Except.ok { x_orig := text, x := intersperse 0 seq,
                    x_lengths := (intersperse 0 seq).length,
                    x_phones := sequence_to_text vocab (intersperse 0 seq) } := by
      simp only [process_text, hseq]
    have hsave : save_to_folder "synth" (spk_folder output_path spk_id)
        cfg.melWriteOk cfg.wavWriteOk fs =
        (Except.error TTSError.IOError,
         FS.write ⟨mel_path (spk_folder output_path spk_id) "synth", none, none⟩
           (FS.mkdir (spk_folder output_path spk_id) fs)) := by
      rw [hmel, hwav]
      rfl
    have hrun : ttsRun vocab encode text cleaner spk_id output_path cfg fs =
        (Except.error TTSError.IOError,
         FS.write ⟨mel_path (spk_folder output_path spk_id) "synth", none, none⟩
           (FS.mkdir (spk_folder output_path spk_id) fs),
         [Ev.processText, Ev.modelSynthesise, Ev.vocoderDecode]) := by
      simp [ttsRun, hp, hm, hv, hsave]
    refine ⟨by rw [hrun], ?_, ?_⟩
    · rw [hrun]
      exact FS.find_write_self _ _
    · rw [hrun]
      show FS.find (FS.write _ (FS.mkdir _ fs)) _ = _
      rw [FS.find_write_ne _ _ _
          (Ne.symm (mel_path_ne_wav_path (spk_folder output_path spk_id) "synth")),
        FS.find_mkdir]

/-- Witness for the amended C6, exercising each conjunct at concrete
inputs: failures of the cleaner, the acoustic model, the vocoder and the
mel write leave the (empty) file system without artifacts, while a
waveform-write failure leaves exactly the mel file. -/
theorem C6_output_atomicity_witness :
    (ttsRun [] (fun _ => Except.ok []) "x" "klingon_cleaners" 2 "out"
      ⟨true, true, true, true⟩ ⟨[], []⟩).2.1 = (⟨[], []⟩ : FS) ∧
    (ttsRun ["_", "a"] (fun _ => Except.ok [1]) "a" "catalan_cleaners" 2
      "out" ⟨false, true, true, true⟩ ⟨[], []⟩).2.1 = (⟨[], []⟩ : FS) ∧
    (ttsRun ["_", "a"] (fun _ => Except.ok [1]) "a" "catalan_cleaners" 2
      "out" ⟨true, false, true, true⟩ ⟨[], []⟩).2.1 = (⟨[], []⟩ : FS) ∧
    (ttsRun ["_", "a"] (fun _ => Except.ok [1]) "a" "catalan_cleaners" 2
      "out" ⟨true, true, false, true⟩ ⟨[], []⟩).2.1.files = [] ∧
    ((ttsRun ["_", "a"] (fun _ => Except.ok [1]) "a" "catalan_cleaners" 2
        "out" ⟨true, true, true, false⟩ ⟨[], []⟩).1 =
          Except.error TTSError.IOError ∧
     FS.find (ttsRun ["_", "a"] (fun _ => Except.ok [1]) "a"
         "catalan_cleaners" 2 "out" ⟨true, true, true, false⟩ ⟨[], []⟩).2.1
       (mel_path (spk_folder "out" 2) "synth") =
         some ⟨mel_path (spk_folder "out" 2) "synth", none, none⟩ ∧
     FS.find (ttsRun ["_", "a"] (fun _ => Except.ok [1]) "a"
         "catalan_cleaners" 2 "out" ⟨true, true, true, false⟩ ⟨[], []⟩).2.1
       (wav_path (spk_folder "out" 2) "synth") =
         FS.find ⟨[], []⟩ (wav_path (spk_folder "out" 2) "synth")) :=
  ⟨(C6_output_atomicity [] (fun _ => Except.ok []) "x" "klingon_cleaners" 2
      "out" ⟨true, true, true, true⟩ ⟨[], []⟩).1
      ⟨TTSError.UnknownProfile, rfl⟩,
   (C6_output_atomicity ["_", "a"] (fun _ => Except.ok [1]) "a"
      "catalan_cleaners" 2 "out" ⟨false, true, true, true⟩ ⟨[], []⟩).2.1 rfl,
   (C6_output_atomicity ["_", "a"] (fun _ => Except.ok [1]) "a"
      "catalan_cleaners" 2 "out" ⟨true, false, true, true⟩ ⟨[], []⟩).2.2.1 rfl,
   (C6_output_atomicity ["_", "a"] (fun _ => Except.ok [1]) "a"
      "catalan_cleaners" 2 "out" ⟨true, true, false, true⟩ ⟨[], []⟩).2.2.2.1 rfl,
   (C6_output_atomicity ["_", "a"] (fun _ => Except.ok [1]) "a"
      "catalan_cleaners" 2 "out" ⟨true, true, true, false⟩ ⟨[], []⟩).2.2.2.2
      [1] rfl rfl rfl rfl rfl⟩

/-- C7: persistence contract: a fully successful run creates the
per-speaker subdirectory `spk_<id>` (idempotently: if it already exists,
the directories are unchanged and no error occurs), writes exactly two
files under it sharing the base filename "synth" — the serialized mel
array and the waveform file carrying sample rate 22050 and PCM_24 —
and overwrites any pre-existing files at those paths. -/
theorem C7_persistence_contract (vocab : List String)
    (encode : String → Except TTSError (List ℕ)) (text cleaner : String)
    (seq : List ℕ) (spk_id : ℤ) (output_path : String) (fs : FS)
    (henc : text_to_sequence encode text cleaner = Except.ok seq) :
    (ttsRun vocab encode text cleaner spk_id output_path
      ⟨true, true, true, true⟩ fs).1 = Except.ok () ∧
    spk_folder output_path spk_id ∈
      (ttsRun vocab encode text cleaner spk_id output_path
        ⟨true, true, true, true⟩ fs).2.1.dirs ∧
    FS.find (ttsRun vocab encode text cleaner spk_id output_path
        ⟨true, true, true, true⟩ fs).2.1
      (mel_path (spk_folder output_path spk_id) "synth") =
      some ⟨mel_path (spk_folder output_path spk_id) "synth", none, none⟩ ∧
    FS.find (ttsRun vocab encode text cleaner spk_id output_path
        ⟨true, true, true, true⟩ fs).2.1
      (wav_path (spk_folder output_path spk_id) "synth") =
      some ⟨wav_path (spk_folder output_path spk_id) "synth", some 22050,
        some "PCM_24"⟩ ∧
    (spk_folder output_path spk_id ∈ fs.dirs →
      (ttsRun vocab encode text cleaner spk_id output_path
        ⟨true, true, true, true⟩ fs).2.1.dirs = fs.dirs) ∧
    ((∀ q ∈ fs.files, q.path ≠ mel_path (spk_folder output_path spk_id) "synth") →
     (∀ q ∈ fs.files, q.path ≠ wav_path (spk_folder output_path spk_id) "synth") →
     (ttsRun vocab encode text cleaner spk_id output_path
        ⟨true, true, true, true⟩ fs).2.1.files =
       [⟨wav_path (spk_folder output_path spk_id) "synth", some 22050,
          some "PCM_24"⟩,
        ⟨mel_path (spk_folder output_path spk_id) "synth", none, none⟩] ++
         fs.files) := by
  have hp : process_text vocab encode text cleaner =
      Except.ok { x_orig := text, x := intersperse 0 seq,
                  x_lengths := (intersperse 0 seq).length,
                  x_phones := sequence_to_text vocab (intersperse 0 seq) } := by
    simp only [process_text, henc]
  have hrun : ttsRun vocab encode text cleaner spk_id output_path
      ⟨true, true, true, true⟩ fs =
      (Except.ok (),
       FS.write ⟨wav_path (spk_folder output_path spk_id) "synth", some 22050,
         some "PCM_24"⟩
         (FS.write ⟨mel_path (spk_folder output_path spk_id) "synth", none, none⟩
           (FS.mkdir (spk_folder output_path spk_id) fs)),
       [Ev.processText, Ev.modelSynthesise, Ev.vocoderDecode]) := by
    simp only [ttsRun, hp]
    rfl
  refine ⟨by rw [hrun], ?_, ?_, ?_, ?_, ?_⟩
  · rw [hrun]
    exact FS.mem_mkdir _ fs
  · rw [hrun]
    show FS.find (FS.write _ (FS.write _ (FS.mkdir _ fs))) _ = _
    rw [FS.find_write_ne _ _ _
        (mel_path_ne_wav_path (spk_folder output_path spk_id) "synth")]
    exact FS.find_write_self _ _
  · rw [hrun]
    exact FS.find_write_self _ _
  · intro hdir
    rw [hrun]
    show (FS.mkdir _ fs).dirs = fs.dirs
    rw [FS.mkdir_of_mem _ _ hdir]
  · intro hmel hwav
    rw [hrun]
    show (FS.write _ (FS.write _ (FS.mkdir _ fs))).files = _
    simp only [FS.write, FS.mkdir_files]
    rw [removeFile_of_not_mem _ _ hmel]
    simp only [removeFile]
    rw [if_neg (mel_path_ne_wav_path (spk_folder output_path spk_id) "synth"),
      removeFile_of_not_mem _ _ hwav]
    rfl

/-- Witness for C7 at a concrete input: output root "out", speaker 2,
with the per-speaker directory already existing (idempotent creation) and
no files on disk: the run succeeds and leaves exactly the two artifacts,
the waveform one carrying sample rate 22050 and subtype PCM_24. -/
theorem C7_persistence_contract_witness :
    text_to_sequence (fun _ => Except.ok [1]) "a" "catalan_cleaners" =
      Except.ok [1] ∧
    (ttsRun ["_", "a"] (fun _ => Except.ok [1]) "a" "catalan_cleaners" 2
      "out" ⟨true, true, true, true⟩ ⟨["out/spk_2"], []⟩).1 = Except.ok () ∧
    spk_folder "out" 2 ∈ (ttsRun ["_", "a"] (fun _ => Except.ok [1]) "a"
      "catalan_cleaners" 2 "out" ⟨true, true, true, true⟩
      ⟨["out/spk_2"], []⟩).2.1.dirs ∧
    FS.find (ttsRun ["_", "a"] (fun _ => Except.ok [1]) "a"
        "catalan_cleaners" 2 "out" ⟨true, true, true, true⟩
        ⟨["out/spk_2"], []⟩).2.1
      (mel_path (spk_folder "out" 2) "synth") =
      some ⟨mel_path (spk_folder "out" 2) "synth", none, none⟩ ∧
    FS.find (ttsRun ["_", "a"] (fun _ => Except.ok [1]) "a"
        "catalan_cleaners" 2 "out" ⟨true, true, true, true⟩
        ⟨["out/spk_2"], []⟩).2.1
      (wav_path (spk_folder "out" 2) "synth") =
      some ⟨wav_path (spk_folder "out" 2) "synth", some 22050, some "PCM_24"⟩ ∧
    (ttsRun ["_", "a"] (fun _ => Except.ok [1]) "a" "catalan_cleaners" 2
      "out" ⟨true, true, true, true⟩ ⟨["out/spk_2"], []⟩).2.1.dirs =
        ["out/spk_2"] ∧
    (ttsRun ["_", "a"] (fun _ => Except.ok [1]) "a" "catalan_cleaners" 2
      "out" ⟨true, true, true, true⟩ ⟨["out/spk_2"], []⟩).2.1.files =
      [⟨wav_path (spk_folder "out" 2) "synth", some 22050, some "PCM_24"⟩,
       ⟨mel_path (spk_folder "out" 2) "synth", none, none⟩] := by
  have h := C7_persistence_contract ["_", "a"] (fun _ => Except.ok [1]) "a"
    "catalan_cleaners" [1] 2 "out" ⟨["out/spk_2"], []⟩ rfl
  exact ⟨rfl, h.1, h.2.1, h.2.2.1, h.2.2.2.1,
    h.2.2.2.2.1 (by decide),
    h.2.2.2.2.2 (by intro q hq; cases hq) (by intro q hq; cases hq)⟩

/-- C10: the refinement-step count is fixed: every CLI invocation calls
`tts` with `n_timesteps = 80`, independently of all parsed flags (no flag
configures it), while the `tts` function's own default of 10 is never the
value used by the reference flow. -/
theorem C10_fixed_n_timesteps (args : Args) :
    (main_invocation args).n_timesteps = 80 ∧
    tts_default_n_timesteps = 10 ∧
    (main_invocation args).n_timesteps ≠ tts_default_n_timesteps := by
  refine ⟨rfl, rfl, ?_⟩
  simp [main_invocation, tts_default_n_timesteps]

end Matcha
